import Mathlib

/-!
Shallow embedding of `python/sglang/srt/layers/attention/triton_backend.py`
(class `TritonAttnBackend`) and proofs of the specified metadata properties.

Modelling conventions:
* 1-D int32 device tensors are `List Int` (overflow is immaterial for the
  properties below, which involve sums of per-request sequence lengths).
* Python/pytorch slice reads follow Python semantics: a negative stop counts
  from the end and slices clamp to the tensor.
* An in-place 1-D slice assignment `t[lo:hi] = v` requires `v` to have exactly
  the slice's length, except that a single-element right-hand side broadcasts;
  any other mismatch raises a `RuntimeError`, modelled as `none`.
* `torch.empty` returns uninitialized memory: its contents are a function of
  the unspecified ambient device memory, modelled by an explicit `mem`
  argument threaded into the operations that allocate.
* Reading an attribute that `init_cuda_graph_state` has not yet set raises
  `AttributeError`; those attributes are `Option` fields and the readers
  return `none` in that case.
-/

/-- Python slice read `xs[:stop]` where `stop` may be negative (counting from
the end, as in `seq_lens[:-1]` and `seq_lens[: bs - 1]` in the source). -/
def pySliceTo (xs : List Int) (stop : Int) : List Int :=
  xs.take (max (if stop < 0 then (xs.length : Int) + stop else stop) 0).toNat

/-- Pytorch in-place 1-D slice assignment `xs[lo:hi] = vals` (non-negative
bounds, step 1).  The result is `none` exactly when pytorch raises a shape
mismatch: the right-hand side length differs from the (clamped) slice length
and is not a broadcastable single element. -/
def setSlice (xs : List Int) (lo hi : Nat) (vals : List Int) : Option (List Int) :=
  if vals.length = min hi xs.length - min lo xs.length then
    some (xs.take (min lo xs.length) ++ vals ++
      xs.drop (min lo xs.length + (min hi xs.length - min lo xs.length)))
  else if vals.length = 1 then
    some (xs.take (min lo xs.length) ++
      List.replicate (min hi xs.length - min lo xs.length) (vals.headD 0) ++
      xs.drop (min lo xs.length + (min hi xs.length - min lo xs.length)))
  else none

/-- `torch.cumsum` over a 1-D tensor: entry `i` is the sum of entries `0..i`. -/
def cumsum (xs : List Int) : List Int :=
  (List.range xs.length).map (fun i => (xs.take (i + 1)).sum)

/-- Exclusive prefix sums: entry `i` is the sum of entries `0..i-1` (entry 0 is
0).  This is the closed form of every `start_loc` table the backend builds. -/
def exclCumsum (xs : List Int) : List Int :=
  (List.range xs.length).map (fun i => (xs.take i).sum)

/-- Pytorch fancy indexing `xs[idx]` by a tensor of (non-negative) indices;
an out-of-range index raises, modelled as `none`. -/
def gatherIdx (xs : List Int) (idx : List Nat) : Option (List Int) :=
  if idx.all (· < xs.length) then some (idx.map (fun i => xs.getD i 0)) else none

/-- Pytorch elementwise subtraction `a - b` of 1-D tensors, with broadcasting
of a single-element operand; any other shape mismatch raises (`none`). -/
def broadcastSub (a b : List Int) : Option (List Int) :=
  if a.length = b.length then some (List.zipWith (fun x y => x - y) a b)
  else if b.length = 1 then some (a.map (fun x => x - b.headD 0))
  else if a.length = 1 then some (b.map (fun y => a.headD 0 - y))
  else none

/-- `torch.max(t).item()` for a 1-D int tensor; the source only applies it to
non-empty tensors (the empty case is guarded), so the `[]` value is arbitrary. -/
def tensorMax : List Int → Int
  | [] => 0
  | x :: r => r.foldl max x

/-- Contents that `torch.empty` happens to return for `n` elements, as a
function of the unspecified ambient device memory `mem`.  Nothing about these
values is guaranteed by pytorch. -/
def uninitContents (mem : List Int) (n : Nat) : List Int :=
  (List.range n).map (fun i => mem.getD i 0)

/-- Reduction dtype chosen in `TritonAttnBackend.__init__` (float32 when
`triton_attention_reduce_in_fp32` is set, float16 otherwise). -/
inductive RDtype
  | float32
  | float16
  deriving DecidableEq

/-- Model of a 2-D tensor allocated by `torch.empty`: shape, dtype and the
(unspecified) contents the allocation happened to contain. -/
structure Tensor2 where
  shape : Nat × Nat
  dtype : RDtype
  contents : List Int
  deriving DecidableEq

/-- The tuple `self.forward_metadata = start_loc, attn_logits, max_seq_len,
max_extend_len`; `none` is Python `None`. -/
structure ForwardMetadata where
  start_loc : Option (List Int)
  attn_logits : Option Tensor2
  max_seq_len : Option Int
  max_extend_len : Option Int
  deriving DecidableEq

/-- Fields of a `ForwardBatch` that this backend reads.
`forward_mode_is_decode` models `forward_batch.forward_mode.is_decode()`. -/
structure ForwardBatch where
  forward_mode_is_decode : Bool
  seq_lens : List Int
  extend_prefix_lens : List Int
  extend_seq_lens : List Int
  extend_start_loc : List Int
  local_seq_indices : Option (List Nat)
  deriving DecidableEq

/-- State of a `TritonAttnBackend` instance.  `cuda_graph_max_seq_len` is set
in `__init__` from `model_runner.model_config.context_len`; the three
`cuda_graph_*` attributes exist only once `init_cuda_graph_state` has run. -/
structure TritonAttnBackend where
  num_head : Nat
  reduce_dtype : RDtype
  forward_metadata : Option ForwardMetadata
  cuda_graph_max_seq_len : Nat
  cuda_graph_max_total_num_tokens : Option Nat
  cuda_graph_start_loc : Option (List Int)
  cuda_graph_attn_logits : Option Tensor2
  deriving DecidableEq

namespace TritonAttnBackend

/-- Constructor `__init__`: records head count and reduction dtype, sets
`forward_metadata = None` and `cuda_graph_max_seq_len = context_len`; the
capture buffers do not exist yet. -/
def init (num_head : Nat) (reduce_dtype : RDtype) (context_len : Nat) :
    TritonAttnBackend :=
  { num_head := num_head,
    reduce_dtype := reduce_dtype,
    forward_metadata := none,
    cuda_graph_max_seq_len := context_len,
    cuda_graph_max_total_num_tokens := none,
    cuda_graph_start_loc := none,
    cuda_graph_attn_logits := none }

/-- Method `init_forward_metadata`.  `mem` supplies the contents of the
`torch.empty` scratch allocation (uninitialized memory).  The result is
`none` when one of the underlying torch operations raises: an out-of-range
gather, a shape-mismatched subtraction, a negative allocation size, or
`torch.max` over an empty tensor. -/
def init_forward_metadata (mem : List Int) (b : TritonAttnBackend)
    (fb : ForwardBatch) : Option TritonAttnBackend :=
  match (match fb.local_seq_indices with
         | some idx => gatherIdx fb.seq_lens idx
         | none => some fb.seq_lens) with
  | none => none
  | some seq_lens =>
    if fb.forward_mode_is_decode then
      match setSlice (List.replicate seq_lens.length (0 : Int)) 1 seq_lens.length
              (cumsum (pySliceTo seq_lens (-1))) with
      | none => none
      | some start_loc =>
        if seq_lens.sum < 0 then none
        else
          some { b with forward_metadata := some ({
               start_loc := some start_loc,
               attn_logits := some
                 { shape := (b.num_head, seq_lens.sum.toNat),
                   dtype := b.reduce_dtype,
                   contents := uninitContents mem (b.num_head * seq_lens.sum.toNat) },
               max_seq_len := some (if 0 < seq_lens.length then tensorMax seq_lens else 0),
               max_extend_len := none } : ForwardMetadata) }
    else
      match (match fb.local_seq_indices with
             | some idx => gatherIdx fb.extend_prefix_lens idx
             | none => some fb.extend_prefix_lens) with
      | none => none
      | some prefix_lens =>
        if 0 < seq_lens.length then
          match broadcastSub seq_lens prefix_lens with
          | none => none
          | some diff =>
            if diff.length = 0 then none
            else
              some { b with forward_metadata := some ({
                start_loc := none, attn_logits := none, max_seq_len := none,
                max_extend_len := some (tensorMax diff) } : ForwardMetadata) }
        else
          some { b with forward_metadata := some ({
            start_loc := none, attn_logits := none, max_seq_len := none,
            max_extend_len := some 0 } : ForwardMetadata) }

/-- Method `init_cuda_graph_state(max_bs)`: allocates, once, the capture-state
buffers — a zeroed int32 `start_loc` table of length `max_bs` and an
accumulator of shape `[num_head, max_bs * cuda_graph_max_seq_len]` whose
contents come from uninitialized memory `mem`. -/
def init_cuda_graph_state (mem : List Int) (b : TritonAttnBackend)
    (max_bs : Nat) : TritonAttnBackend :=
  { b with
    cuda_graph_max_total_num_tokens := some (max_bs * b.cuda_graph_max_seq_len),
    cuda_graph_start_loc := some (List.replicate max_bs (0 : Int)),
    cuda_graph_attn_logits := some
      { shape := (b.num_head, max_bs * b.cuda_graph_max_seq_len),
        dtype := b.reduce_dtype,
        contents := uninitContents mem (b.num_head * (max_bs * b.cuda_graph_max_seq_len)) } }

/-- Method `init_forward_metadata_capture_cuda_graph(bs, req_pool_indices,
seq_lens)`: points `forward_metadata` at the pre-allocated capture buffers and
the configured `cuda_graph_max_seq_len`; the three arguments are ignored by
the source body.  `none` models the `AttributeError` raised when
`init_cuda_graph_state` has not run. -/
def init_forward_metadata_capture_cuda_graph (b : TritonAttnBackend)
    (bs : Nat) (req_pool_indices : List Nat) (seq_lens : List Int) :
    Option TritonAttnBackend :=
  match b.cuda_graph_start_loc, b.cuda_graph_attn_logits with
  | some sl, some al =>
    some { b with forward_metadata := some ({
      start_loc := some sl,
      attn_logits := some al,
      max_seq_len := some (b.cuda_graph_max_seq_len : Int),
      max_extend_len := none } : ForwardMetadata) }
  | _, _ => none

/-- First statement of `init_forward_metadata_replay_cuda_graph`:
`self.cuda_graph_start_loc.zero_()`, an in-place device write that zeroes the
whole capture table.  It executes before the cumulative-sum slice assignment
(the second statement). -/
def replayZeroStep (table : List Int) : List Int :=
  List.replicate table.length (0 : Int)

/-- Second statement of `init_forward_metadata_replay_cuda_graph`:
`self.cuda_graph_start_loc[1:bs] = torch.cumsum(seq_lens[: bs - 1], dim=0)`,
performed on the already-zeroed table.  `none` models the raised
`RuntimeError` on a shape mismatch. -/
def replaySliceStep (zeroed : List Int) (bs : Nat) (seq_lens : List Int) :
    Option (List Int) :=
  setSlice zeroed 1 bs (cumsum (pySliceTo seq_lens ((bs : Int) - 1)))

/-- Method `init_forward_metadata_replay_cuda_graph(bs, req_pool_indices,
seq_lens)`: zeroes the capture table in place, then slice-assigns the
cumulative sums.  `none` models a raised error — which, for a shape mismatch
in the second statement, happens only after the zeroing write of the first. -/
def init_forward_metadata_replay_cuda_graph (b : TritonAttnBackend)
    (bs : Nat) (seq_lens : List Int) : Option TritonAttnBackend :=
  match b.cuda_graph_start_loc with
  | none => none
  | some table =>
    match replaySliceStep (replayZeroStep table) bs seq_lens with
    | none => none
    | some t => some { b with cuda_graph_start_loc := some t }

/-- Method `get_cuda_graph_seq_len_fill_value`. -/
def get_cuda_graph_seq_len_fill_value (b : TritonAttnBackend) : Int := 1

/-- Per-request length/offset tensors that `forward_extend` passes to the
external `extend_attention_fwd` kernel. -/
structure ExtendKernelArgs where
  seq_lens : List Int
  extend_seq_lens : List Int
  extend_start_loc : List Int
  deriving DecidableEq

/-- Offset computation of method `forward_extend`: the statements that build
the `seq_lens`, `extend_seq_lens` and `extend_start_loc` arguments of the
kernel call (`.contiguous()` does not change values; the kernel itself and
the cache-pool write are external collaborators out of scope). -/
def forward_extend_args (fb : ForwardBatch) : Option ExtendKernelArgs :=
  match fb.local_seq_indices with
  | some idx =>
    match gatherIdx fb.seq_lens idx with
    | none => none
    | some seq_lens =>
      match gatherIdx fb.extend_seq_lens idx with
      | none => none
      | some extend_seq_lens =>
        match setSlice (List.replicate extend_seq_lens.length (0 : Int)) 1
                extend_seq_lens.length (cumsum (pySliceTo extend_seq_lens (-1))) with
        | none => none
        | some extend_start_loc =>
          some { seq_lens := seq_lens, extend_seq_lens := extend_seq_lens,
                 extend_start_loc := extend_start_loc }
  | none =>
    some { seq_lens := fb.seq_lens, extend_seq_lens := fb.extend_seq_lens,
           extend_start_loc := fb.extend_start_loc }

end TritonAttnBackend

/-- Decode-mode batch over sequence lengths `L`, with no sub-batch index list. -/
def decodeBatch (L : List Int) : ForwardBatch :=
  { forward_mode_is_decode := true, seq_lens := L, extend_prefix_lens := [],
    extend_seq_lens := [], extend_start_loc := [], local_seq_indices := none }

/-- Extend-mode batch over sequence lengths `L` and cached-prefix lengths `P`,
with no sub-batch index list. -/
def extendBatch (L P : List Int) : ForwardBatch :=
  { forward_mode_is_decode := false, seq_lens := L, extend_prefix_lens := P,
    extend_seq_lens := [], extend_start_loc := [], local_seq_indices := none }

/-- Re-slicing of a per-request array by a sub-batch index list, as the spec
words it: the array restricted, in order, to the listed positions. -/
def sliceBy (xs : List Int) (idx : List Nat) : List Int :=
  idx.map (fun i => xs.getD i 0)

/-- Metadata computed by `init_forward_metadata`, isolated from the backend
state: the stored tuple depends only on the head count, the reduction dtype,
the batch, and the ambient memory that `torch.empty` exposes (proved
equivalent to the method below in `init_forward_metadata_factored`). -/
def initMetadata (mem : List Int) (nh : Nat) (rd : RDtype) (fb : ForwardBatch) :
    Option ForwardMetadata :=
  match (match fb.local_seq_indices with
         | some idx => gatherIdx fb.seq_lens idx
         | none => some fb.seq_lens) with
  | none => none
  | some seq_lens =>
    if fb.forward_mode_is_decode then
      match setSlice (List.replicate seq_lens.length (0 : Int)) 1 seq_lens.length
              (cumsum (pySliceTo seq_lens (-1))) with
      | none => none
      | some start_loc =>
        if seq_lens.sum < 0 then none
        else
          some ({ start_loc := some start_loc,
                  attn_logits := some
                    { shape := (nh, seq_lens.sum.toNat), dtype := rd,
                      contents := uninitContents mem (nh * seq_lens.sum.toNat) },
                  max_seq_len := some (if 0 < seq_lens.length then tensorMax seq_lens else 0),
                  max_extend_len := none } : ForwardMetadata)
    else
      match (match fb.local_seq_indices with
             | some idx => gatherIdx fb.extend_prefix_lens idx
             | none => some fb.extend_prefix_lens) with
      | none => none
      | some prefix_lens =>
        if 0 < seq_lens.length then
          match broadcastSub seq_lens prefix_lens with
          | none => none
          | some diff =>
            if diff.length = 0 then none
            else
              some ({ start_loc := none, attn_logits := none, max_seq_len := none,
                      max_extend_len := some (tensorMax diff) } : ForwardMetadata)
        else
          some ({ start_loc := none, attn_logits := none, max_seq_len := none,
                  max_extend_len := some 0 } : ForwardMetadata)

/-- Metadata with the accumulator contents erased: the fields of
`forward_metadata` that the code actually determines (`torch.empty` leaves
the accumulator contents unspecified). -/
def ForwardMetadata.eraseAccContents (m : ForwardMetadata) : ForwardMetadata :=
  { m with attn_logits := m.attn_logits.map (fun a => { a with contents := [] }) }

/-- Mode exclusivity of a stored metadata tuple: either all three decode
fields are populated and `max_extend_len` is `None`, or all three are `None`
and `max_extend_len` is populated. -/
def ForwardMetadata.modeExclusive (m : ForwardMetadata) : Bool :=
  (m.start_loc.isSome && m.attn_logits.isSome && m.max_seq_len.isSome &&
    m.max_extend_len.isNone) ||
  (m.start_loc.isNone && m.attn_logits.isNone && m.max_seq_len.isNone &&
    m.max_extend_len.isSome)

/-! Basic facts about the tensor-operation models. -/

theorem cumsum_length (xs : List Int) : (cumsum xs).length = xs.length := by
  simp [cumsum]

theorem exclCumsum_length (xs : List Int) : (exclCumsum xs).length = xs.length := by
  simp [exclCumsum]

theorem cumsum_getD (xs : List Int) (i : Nat) (h : i < xs.length) :
    (cumsum xs).getD i 0 = (xs.take (i + 1)).sum := by
  have h2 : i < (cumsum xs).length := by simpa [cumsum_length] using h
  rw [List.getD_eq_getElem _ _ h2]
  simp [cumsum]

theorem exclCumsum_getD (xs : List Int) (i : Nat) (h : i < xs.length) :
    (exclCumsum xs).getD i 0 = (xs.take i).sum := by
  have h2 : i < (exclCumsum xs).length := by simpa [exclCumsum_length] using h
  rw [List.getD_eq_getElem _ _ h2]
  simp [exclCumsum]

theorem pySliceTo_neg_one (xs : List Int) : pySliceTo xs (-1) = xs.dropLast := by
  unfold pySliceTo
  rw [if_pos (by norm_num : (-1 : Int) < 0), List.dropLast_eq_take]
  congr 1
  omega

theorem pySliceTo_sub_one (xs : List Int) (bs : Nat) (h : 1 ≤ bs) :
    pySliceTo xs ((bs : Int) - 1) = xs.take (bs - 1) := by
  unfold pySliceTo
  rw [if_neg (by omega : ¬ ((bs : Int) - 1 < 0))]
  congr 1
  omega

theorem setSlice_exact (xs vals : List Int) (lo hi : Nat) (h1 : lo ≤ hi)
    (h2 : hi ≤ xs.length) (hv : vals.length = hi - lo) :
    setSlice xs lo hi vals = some (xs.take lo ++ vals ++ xs.drop hi) := by
  have e1 : min lo xs.length = lo := by omega
  have e2 : min hi xs.length = hi := by omega
  have e3 : lo + (hi - lo) = hi := by omega
  unfold setSlice
  rw [e1, e2, e3, if_pos hv]

theorem setSlice_mismatch (xs vals : List Int) (lo hi : Nat)
    (h1 : vals.length ≠ min hi xs.length - min lo xs.length)
    (h2 : vals.length ≠ 1) :
    setSlice xs lo hi vals = none := by
  unfold setSlice
  rw [if_neg h1, if_neg h2]

theorem setSlice_stop_zero (xs : List Int) (lo : Nat) :
    setSlice xs lo 0 [] = some xs := by
  unfold setSlice
  simp

theorem setSlice_some_length (xs vals ys : List Int) (lo hi : Nat)
    (h : setSlice xs lo hi vals = some ys) : ys.length = xs.length := by
  unfold setSlice at h
  by_cases h1 : vals.length = min hi xs.length - min lo xs.length
  · rw [if_pos h1] at h
    cases h
    simp only [List.length_append, List.length_take, List.length_drop]
    omega
  · rw [if_neg h1] at h
    by_cases h2 : vals.length = 1
    · rw [if_pos h2] at h
      cases h
      simp only [List.length_append, List.length_take, List.length_drop,
        List.length_replicate]
      omega
    · rw [if_neg h2] at h
      cases h

theorem exclCumsum_eq_cons (xs : List Int) (h : xs ≠ []) :
    exclCumsum xs = 0 :: cumsum xs.dropLast := by
  have hlen : 1 ≤ xs.length := by
    cases xs
    · simp at h
    · simp
  apply List.ext_getElem
  · simp only [exclCumsum_length, List.length_cons, cumsum_length,
      List.length_dropLast]
    omega
  · intro i h1 h2
    cases i with
    | zero =>
      simp [exclCumsum]
    | succ j =>
      have hj : j + 1 < xs.length := by simpa [exclCumsum_length] using h1
      have hmin : min (j + 1) (xs.length - 1) = j + 1 := by omega
      simp [exclCumsum, cumsum, List.dropLast_eq_take, List.take_take, hmin]

theorem startLoc_closed_form (xs : List Int) :
    setSlice (List.replicate xs.length (0 : Int)) 1 xs.length
      (cumsum (pySliceTo xs (-1))) = some (exclCumsum xs) := by
  rcases xs with _ | ⟨y, t⟩
  · decide
  · have hlen : 1 ≤ (y :: t).length := by simp
    rw [pySliceTo_neg_one]
    rw [setSlice_exact _ _ _ _ (by omega) (by simp)
      (by simp [cumsum_length]) ]
    rw [exclCumsum_eq_cons _ (by simp)]
    congr 1
    simp [List.take_replicate, List.drop_replicate]

/-! Facts about `tensorMax` (the model of `torch.max(...).item()`). -/

theorem foldl_max_init_le (r : List Int) (a : Int) : a ≤ r.foldl max a := by
  induction r generalizing a with
  | nil => simp
  | cons x r ih =>
    simp only [List.foldl_cons]
    exact le_trans (le_max_left a x) (ih (max a x))

theorem foldl_max_le_of_mem (r : List Int) (a x : Int) (hx : x ∈ r) :
    x ≤ r.foldl max a := by
  induction r generalizing a with
  | nil => simp at hx
  | cons y r ih =>
    simp only [List.foldl_cons]
    rcases List.mem_cons.mp hx with h | h
    · subst h
      exact le_trans (le_max_right a x) (foldl_max_init_le r (max a x))
    · exact ih (max a y) h

theorem foldl_max_mem (r : List Int) (a : Int) :
    r.foldl max a = a ∨ r.foldl max a ∈ r := by
  induction r generalizing a with
  | nil => simp
  | cons y r ih =>
    simp only [List.foldl_cons]
    rcases ih (max a y) with h | h
    · rcases max_choice a y with hm | hm
      · left
        rw [h, hm]
      · right
        rw [h, hm]
        exact List.mem_cons_self _ _
    · right
      exact List.mem_cons_of_mem _ h

theorem tensorMax_mem (xs : List Int) (h : xs ≠ []) : tensorMax xs ∈ xs := by
  cases xs with
  | nil => simp at h
  | cons x r =>
    simp only [tensorMax]
    rcases foldl_max_mem r x with h2 | h2
    · rw [h2]
      exact List.mem_cons_self _ _
    · exact List.mem_cons_of_mem _ h2

theorem le_tensorMax (xs : List Int) (x : Int) (hx : x ∈ xs) : x ≤ tensorMax xs := by
  cases xs with
  | nil => simp at hx
  | cons y r =>
    simp only [tensorMax]
    rcases List.mem_cons.mp hx with h | h
    · subst h
      exact foldl_max_init_le r x
    · exact foldl_max_le_of_mem r y x h

/-! Closed forms of the backend operations used across the claims. -/

/-- Closed form of `init_forward_metadata` on a decode-mode batch with no
sub-batch index list: `start_loc` is the table of exclusive prefix sums, the
accumulator has shape `[num_head, sum(L)]`, and `max_seq_len` is the maximum
length (0 for an empty batch). -/
theorem init_forward_metadata_decode_eq (mem : List Int) (b : TritonAttnBackend)
    (L : List Int) (h : 0 ≤ L.sum) :
    TritonAttnBackend.init_forward_metadata mem b (decodeBatch L) =
      some { b with forward_metadata := some ({
        start_loc := some (exclCumsum L),
        attn_logits := some
          { shape := (b.num_head, L.sum.toNat), dtype := b.reduce_dtype,
            contents := uninitContents mem (b.num_head * L.sum.toNat) },
        max_seq_len := some (if 0 < L.length then tensorMax L else 0),
        max_extend_len := none } : ForwardMetadata) } := by
  unfold TritonAttnBackend.init_forward_metadata
  simp only [decodeBatch]
  rw [startLoc_closed_form]
  simp [not_lt.mpr h]

/-- Closed form of `init_forward_metadata` on a non-empty extend-mode batch
with no sub-batch index list and prefix array of matching size: the three
decode fields are `None` and `max_extend_len` is the maximum elementwise
difference. -/
theorem init_forward_metadata_extend_eq (mem : List Int) (b : TritonAttnBackend)
    (L P : List Int) (hne : L ≠ []) (hlen : P.length = L.length) :
    TritonAttnBackend.init_forward_metadata mem b (extendBatch L P) =
      some { b with forward_metadata := some ({
        start_loc := none, attn_logits := none, max_seq_len := none,
        max_extend_len := some (tensorMax (List.zipWith (fun x y => x - y) L P)) } :
        ForwardMetadata) } := by
  have hpos : 0 < L.length := by
    cases L
    · simp at hne
    · simp
  have hz : ¬ ((List.zipWith (fun x y => x - y) L P).length = 0) := by
    rw [List.length_zipWith]
    omega
  unfold TritonAttnBackend.init_forward_metadata
  simp only [extendBatch]
  unfold broadcastSub
  rw [if_pos hlen.symm]
  simp [hpos, hz]
  constructor
  · exact hne
  · intro hP
    rw [hP] at hlen
    simp at hlen
    omega

/-- Closed form of `init_forward_metadata_replay_cuda_graph` for an in-range
batch size (`1 ≤ bs ≤ table length`, `bs - 1 ≤ |seq_lens|`): the table holds
0, the cumulative sums of the first `bs - 1` lengths, then zeros; no other
field of the backend changes. -/
theorem replay_eq (b : TritonAttnBackend) (t : List Int) (bs : Nat) (L : List Int)
    (ht : b.cuda_graph_start_loc = some t) (h1 : 1 ≤ bs) (h2 : bs ≤ t.length)
    (h3 : bs - 1 ≤ L.length) :
    TritonAttnBackend.init_forward_metadata_replay_cuda_graph b bs L =
      some { b with cuda_graph_start_loc := some ((0 : Int) ::
        (cumsum (L.take (bs - 1)) ++
          List.replicate (t.length - bs) (0 : Int))) } := by
  unfold TritonAttnBackend.init_forward_metadata_replay_cuda_graph
  unfold TritonAttnBackend.replaySliceStep TritonAttnBackend.replayZeroStep
  simp only [ht]
  rw [pySliceTo_sub_one L bs h1]
  rw [setSlice_exact _ _ _ _ (by omega) (by simp; omega)
    (by simp [cumsum_length]; omega)]
  have e1 : (List.replicate t.length (0 : Int)).take 1 = [(0 : Int)] := by
    rw [List.take_replicate]
    have : min 1 t.length = 1 := by omega
    rw [this]
    rfl
  have e2 : (List.replicate t.length (0 : Int)).drop bs =
      List.replicate (t.length - bs) (0 : Int) := by
    rw [List.drop_replicate]
  rw [e1, e2]
  rfl

theorem zipWith_sub_getD (L P : List Int) (i : Nat) (hi : i < L.length)
    (hlen : P.length = L.length) :
    (List.zipWith (fun x y => x - y) L P).getD i 0 = L.getD i 0 - P.getD i 0 := by
  have h1 : i < (List.zipWith (fun x y => x - y) L P).length := by
    rw [List.length_zipWith]
    omega
  rw [List.getD_eq_getElem _ _ h1, List.getD_eq_getElem _ _ hi,
    List.getD_eq_getElem _ _ (by omega : i < P.length), List.getElem_zipWith]

/-- C1: in decode mode, for every non-empty list of sequence lengths `L` (no
sub-batch restriction), the `start_loc` tensor computed by
`init_forward_metadata` satisfies `start_loc[0] = 0`,
`start_loc[i] = start_loc[i-1] + L[i-1]` for all `0 < i < |L|`, and
`start_loc[|L|-1] + L[|L|-1] = sum(L)`. -/
theorem c1_decode_start_loc_recurrence (mem : List Int) (b : TritonAttnBackend)
    (L : List Int) (hne : L ≠ []) (hnn : ∀ x ∈ L, (0 : Int) ≤ x) :
    ∃ b1, TritonAttnBackend.init_forward_metadata mem b (decodeBatch L) = some b1 ∧
      ∃ s, b1.forward_metadata.bind ForwardMetadata.start_loc = some s ∧
        s.length = L.length ∧
        s.getD 0 0 = 0 ∧
        (∀ i, 0 < i → i < L.length →
          s.getD i 0 = s.getD (i - 1) 0 + L.getD (i - 1) 0) ∧
        s.getD (L.length - 1) 0 + L.getD (L.length - 1) 0 = L.sum := by
  have hsum : 0 ≤ L.sum := List.sum_nonneg hnn
  have hpos : 0 < L.length := List.length_pos.mpr hne
  refine ⟨_, init_forward_metadata_decode_eq mem b L hsum, exclCumsum L, rfl,
    exclCumsum_length L, ?_, ?_, ?_⟩
  · rw [exclCumsum_getD L 0 hpos]
    simp
  · intro i h0 hi
    have hi1 : i - 1 < L.length := by omega
    have e : i - 1 + 1 = i := by omega
    rw [exclCumsum_getD L i hi, exclCumsum_getD L (i - 1) (by omega),
      List.getD_eq_getElem L 0 hi1]
    calc (L.take i).sum = (L.take (i - 1 + 1)).sum := by rw [e]
      _ = (L.take (i - 1)).sum + L[i - 1] := List.sum_take_succ L (i - 1) hi1
  · have hl1 : L.length - 1 < L.length := by omega
    have e : L.length - 1 + 1 = L.length := by omega
    rw [exclCumsum_getD L (L.length - 1) hl1, List.getD_eq_getElem L 0 hl1]
    calc (L.take (L.length - 1)).sum + L[L.length - 1]
        = (L.take (L.length - 1 + 1)).sum := (List.sum_take_succ L _ hl1).symm
      _ = L.sum := by rw [e, List.take_length]

/-- Witness for C1 at the concrete decode batch `[4, 1, 7]` (the spec's
end-to-end scenario). -/
theorem c1_decode_start_loc_recurrence_witness :
    (([4, 1, 7] : List Int) ≠ [] ∧ ∀ x ∈ ([4, 1, 7] : List Int), (0 : Int) ≤ x) ∧
    (∃ b1, TritonAttnBackend.init_forward_metadata []
        (TritonAttnBackend.init 2 RDtype.float16 8) (decodeBatch [4, 1, 7]) = some b1 ∧
      ∃ s, b1.forward_metadata.bind ForwardMetadata.start_loc = some s ∧
        s.length = ([4, 1, 7] : List Int).length ∧
        s.getD 0 0 = 0 ∧
        (∀ i, 0 < i → i < ([4, 1, 7] : List Int).length →
          s.getD i 0 = s.getD (i - 1) 0 + ([4, 1, 7] : List Int).getD (i - 1) 0) ∧
        s.getD (([4, 1, 7] : List Int).length - 1) 0 +
          ([4, 1, 7] : List Int).getD (([4, 1, 7] : List Int).length - 1) 0 =
          ([4, 1, 7] : List Int).sum) :=
  ⟨⟨by decide, by decide⟩,
    c1_decode_start_loc_recurrence [] (TritonAttnBackend.init 2 RDtype.float16 8)
      [4, 1, 7] (by decide) (by decide)⟩

/-- C4: the empty batch is a valid no-op for every exposed operation: decode
metadata has an empty `start_loc`, a zero-sized accumulator of shape
`[num_head, 0]` and `max_seq_len = 0`; extend metadata has
`max_extend_len = 0`; and a cuda-graph replay with batch size 0 (empty length
list) completes without raising. -/
theorem c4_empty_batch (mem mem2 : List Int) (b : TritonAttnBackend)
    (nh ctx maxbs : Nat) (rd : RDtype) :
    (TritonAttnBackend.init_forward_metadata mem b (decodeBatch []) =
      some { b with forward_metadata := some ({
        start_loc := some [],
        attn_logits := some
          { shape := (b.num_head, 0), dtype := b.reduce_dtype, contents := [] },
        max_seq_len := some 0, max_extend_len := none } : ForwardMetadata) }) ∧
    (TritonAttnBackend.init_forward_metadata mem b (extendBatch [] []) =
      some { b with forward_metadata := some ({
        start_loc := none, attn_logits := none, max_seq_len := none,
        max_extend_len := some 0 } : ForwardMetadata) }) ∧
    ((TritonAttnBackend.init_forward_metadata_replay_cuda_graph
        (TritonAttnBackend.init_cuda_graph_state mem2
          (TritonAttnBackend.init nh rd ctx) maxbs) 0 []).isSome = true) := by
  refine ⟨?_, ?_, ?_⟩
  · rw [init_forward_metadata_decode_eq mem b [] (by simp)]
    simp [exclCumsum, uninitContents]
  · simp [TritonAttnBackend.init_forward_metadata, extendBatch]
  · unfold TritonAttnBackend.init_forward_metadata_replay_cuda_graph
    simp only [TritonAttnBackend.init_cuda_graph_state, TritonAttnBackend.init]
    unfold TritonAttnBackend.replaySliceStep TritonAttnBackend.replayZeroStep
    have h0 : cumsum (pySliceTo [] (((0 : Nat) : Int) - 1)) = [] := by
      simp [pySliceTo, cumsum]
    rw [h0, List.length_replicate, setSlice_stop_zero]
    rfl

/-- C6: for a non-empty extend batch with lengths `L` and prefix lengths `P`
of equal size, `init_forward_metadata` sets `max_extend_len` to the maximum
over `i` of `L[i] - P[i]` and sets `start_loc`, the accumulator and
`max_seq_len` all to `None`; for the empty batch `max_extend_len = 0`. -/
theorem c6_extend_max_len (mem : List Int) (b : TritonAttnBackend)
    (L P : List Int) (hne : L ≠ []) (hlen : P.length = L.length) :
    (∃ b1, TritonAttnBackend.init_forward_metadata mem b (extendBatch L P) = some b1 ∧
      ∃ m : Int, b1.forward_metadata = some ({
          start_loc := none, attn_logits := none,
          max_seq_len := none, max_extend_len := some m } : ForwardMetadata) ∧
        (∃ i, i < L.length ∧ m = L.getD i 0 - P.getD i 0) ∧
        (∀ i, i < L.length → L.getD i 0 - P.getD i 0 ≤ m)) ∧
    (TritonAttnBackend.init_forward_metadata mem b (extendBatch [] []) =
      some { b with forward_metadata := some ({
        start_loc := none, attn_logits := none, max_seq_len := none,
        max_extend_len := some 0 } : ForwardMetadata) }) := by
  have hzlen : (List.zipWith (fun x y => x - y) L P).length = L.length := by
    rw [List.length_zipWith]
    omega
  have hzne : List.zipWith (fun x y => x - y) L P ≠ [] := by
    intro hz
    rw [hz] at hzlen
    simp at hzlen
    exact hne (List.length_eq_zero.mp hzlen.symm)
  constructor
  · refine ⟨_, init_forward_metadata_extend_eq mem b L P hne hlen,
      tensorMax (List.zipWith (fun x y => x - y) L P), rfl, ?_, ?_⟩
    · obtain ⟨i, hi, hgi⟩ := List.getElem_of_mem (tensorMax_mem _ hzne)
      have hiL : i < L.length := by omega
      refine ⟨i, hiL, ?_⟩
      rw [← zipWith_sub_getD L P i hiL hlen, List.getD_eq_getElem _ _ hi, hgi]
    · intro i hi
      rw [← zipWith_sub_getD L P i hi hlen,
        List.getD_eq_getElem _ _ (by omega : i < (List.zipWith (fun x y => x - y) L P).length)]
      exact le_tensorMax _ _ (List.getElem_mem _)
  · simp [TritonAttnBackend.init_forward_metadata, extendBatch]

/-- Witness for C6 at the spec's end-to-end extend scenario: lengths
`[10, 6]`, prefix lengths `[8, 6]`. -/
theorem c6_extend_max_len_witness :
    (([10, 6] : List Int) ≠ [] ∧ ([8, 6] : List Int).length = ([10, 6] : List Int).length) ∧
    ((∃ b1, TritonAttnBackend.init_forward_metadata []
        (TritonAttnBackend.init 2 RDtype.float16 8) (extendBatch [10, 6] [8, 6]) = some b1 ∧
      ∃ m : Int, b1.forward_metadata = some ({
          start_loc := none, attn_logits := none,
          max_seq_len := none, max_extend_len := some m } : ForwardMetadata) ∧
        (∃ i, i < ([10, 6] : List Int).length ∧
          m = ([10, 6] : List Int).getD i 0 - ([8, 6] : List Int).getD i 0) ∧
        (∀ i, i < ([10, 6] : List Int).length →
          ([10, 6] : List Int).getD i 0 - ([8, 6] : List Int).getD i 0 ≤ m)) ∧
    (TritonAttnBackend.init_forward_metadata []
        (TritonAttnBackend.init 2 RDtype.float16 8) (extendBatch [] []) =
      some { TritonAttnBackend.init 2 RDtype.float16 8 with forward_metadata := some ({
        start_loc := none, attn_logits := none, max_seq_len := none,
        max_extend_len := some 0 } : ForwardMetadata) })) :=
  ⟨⟨by decide, by decide⟩,
    c6_extend_max_len [] (TritonAttnBackend.init 2 RDtype.float16 8)
      [10, 6] [8, 6] (by decide) (by decide)⟩

/-- C7: `init_forward_metadata_capture_cuda_graph` stores, whatever `bs`,
`req_pool_indices` and `seq_lens` arguments are passed, metadata whose
`start_loc` and accumulator fields are exactly the buffers pre-allocated by
`init_cuda_graph_state`, and whose `max_seq_len` is the configured maximum
context length (`cuda_graph_max_seq_len`), not a value derived from the
passed `seq_lens` (which do not occur in the result). -/
theorem c7_capture_fixed_buffers (b0 : TritonAttnBackend) (mem : List Int)
    (maxbs bs : Nat) (rpi : List Nat) (sl : List Int) :
    TritonAttnBackend.init_forward_metadata_capture_cuda_graph
        (TritonAttnBackend.init_cuda_graph_state mem b0 maxbs) bs rpi sl =
      some { TritonAttnBackend.init_cuda_graph_state mem b0 maxbs with
        forward_metadata := some ({
          start_loc := (TritonAttnBackend.init_cuda_graph_state mem b0 maxbs).cuda_graph_start_loc,
          attn_logits := (TritonAttnBackend.init_cuda_graph_state mem b0 maxbs).cuda_graph_attn_logits,
          max_seq_len := some (b0.cuda_graph_max_seq_len : Int),
          max_extend_len := none } : ForwardMetadata) } := rfl

theorem gatherIdx_eq_sliceBy (xs : List Int) (idx : List Nat)
    (h : ∀ i ∈ idx, i < xs.length) : gatherIdx xs idx = some (sliceBy xs idx) := by
  have hall : idx.all (fun i => decide (i < xs.length)) = true := by
    rw [List.all_eq_true]
    intro i hi
    simpa using h i hi
  unfold gatherIdx sliceBy
  rw [if_pos hall]

/-- Closed form of a decode-mode `init_forward_metadata` when a sub-batch
index list is present: everything is computed from the lengths re-sliced by
that list. -/
theorem init_forward_metadata_decode_sliced (mem : List Int) (b : TritonAttnBackend)
    (fb : ForwardBatch) (idx : List Nat)
    (hmode : fb.forward_mode_is_decode = true)
    (hidx : fb.local_seq_indices = some idx)
    (hb : ∀ i ∈ idx, i < fb.seq_lens.length)
    (hnn : 0 ≤ (sliceBy fb.seq_lens idx).sum) :
    TritonAttnBackend.init_forward_metadata mem b fb =
      some { b with forward_metadata := some ({
        start_loc := some (exclCumsum (sliceBy fb.seq_lens idx)),
        attn_logits := some
          { shape := (b.num_head, (sliceBy fb.seq_lens idx).sum.toNat),
            dtype := b.reduce_dtype,
            contents := uninitContents mem
              (b.num_head * (sliceBy fb.seq_lens idx).sum.toNat) },
        max_seq_len := some (if 0 < (sliceBy fb.seq_lens idx).length
          then tensorMax (sliceBy fb.seq_lens idx) else 0),
        max_extend_len := none } : ForwardMetadata) } := by
  unfold TritonAttnBackend.init_forward_metadata
  simp only [hidx, gatherIdx_eq_sliceBy fb.seq_lens idx hb, hmode]
  rw [startLoc_closed_form]
  simp [not_lt.mpr hnn]

/-- Closed form of an extend-mode `init_forward_metadata` when a non-empty
sub-batch index list is present: `max_extend_len` is computed from the
lengths and prefix lengths both re-sliced by that list. -/
theorem init_forward_metadata_extend_sliced (mem : List Int) (b : TritonAttnBackend)
    (fb : ForwardBatch) (idx : List Nat)
    (hmode : fb.forward_mode_is_decode = false)
    (hidx : fb.local_seq_indices = some idx) (hne : idx ≠ [])
    (hb1 : ∀ i ∈ idx, i < fb.seq_lens.length)
    (hb2 : ∀ i ∈ idx, i < fb.extend_prefix_lens.length) :
    TritonAttnBackend.init_forward_metadata mem b fb =
      some { b with forward_metadata := some ({
        start_loc := none, attn_logits := none, max_seq_len := none,
        max_extend_len := some (tensorMax (List.zipWith (fun x y => x - y)
          (sliceBy fb.seq_lens idx) (sliceBy fb.extend_prefix_lens idx))) } :
        ForwardMetadata) } := by
  have hpos : 0 < idx.length := List.length_pos.mpr hne
  have hlen1 : (sliceBy fb.seq_lens idx).length = idx.length := by
    simp [sliceBy]
  have hlen2 : (sliceBy fb.extend_prefix_lens idx).length = idx.length := by
    simp [sliceBy]
  have hz : ¬ ((List.zipWith (fun x y => x - y)
      (sliceBy fb.seq_lens idx) (sliceBy fb.extend_prefix_lens idx)).length = 0) := by
    rw [List.length_zipWith]
    omega
  unfold TritonAttnBackend.init_forward_metadata
  simp only [hidx, gatherIdx_eq_sliceBy fb.seq_lens idx hb1,
    gatherIdx_eq_sliceBy fb.extend_prefix_lens idx hb2, hmode]
  unfold broadcastSub
  rw [if_pos (by omega : (sliceBy fb.seq_lens idx).length =
    (sliceBy fb.extend_prefix_lens idx).length)]
  simp [hz, (by omega : 0 < (sliceBy fb.seq_lens idx).length)]
  constructor
  · intro h
    rw [h] at hlen1
    simp at hlen1
    omega
  · intro h
    rw [h] at hlen2
    simp at hlen2
    omega

/-- C2: after `init_cuda_graph_state`, a replay with batch size
`1 ≤ bs ≤ max_bs` over lengths `L` (at least `bs` of them) leaves the first
`bs` entries of the capture-state `start_loc` table identical to the
`start_loc` that a fresh decode-mode `init_forward_metadata` computes from
the first `bs` entries of `L`. -/
theorem c2_replay_matches_fresh_build (b0 : TritonAttnBackend) (mem mem2 : List Int)
    (maxbs bs : Nat) (L : List Int) (h1 : 1 ≤ bs) (h2 : bs ≤ maxbs)
    (h3 : bs ≤ L.length) (hnn : ∀ x ∈ L, (0 : Int) ≤ x) :
    ∃ b1 b2,
      TritonAttnBackend.init_forward_metadata_replay_cuda_graph
        (TritonAttnBackend.init_cuda_graph_state mem b0 maxbs) bs L = some b1 ∧
      TritonAttnBackend.init_forward_metadata mem2 b0 (decodeBatch (L.take bs)) = some b2 ∧
      b1.cuda_graph_start_loc.map (fun t => t.take bs) =
        b2.forward_metadata.bind ForwardMetadata.start_loc := by
  have ht : (TritonAttnBackend.init_cuda_graph_state mem b0 maxbs).cuda_graph_start_loc =
      some (List.replicate maxbs (0 : Int)) := rfl
  have h2r : bs ≤ (List.replicate maxbs (0 : Int)).length := by
    simpa using h2
  have h3r : bs - 1 ≤ L.length := by omega
  have hsum : 0 ≤ (L.take bs).sum :=
    List.sum_nonneg (fun x hx => hnn x (List.mem_of_mem_take hx))
  have hlen_take : (L.take bs).length = bs := by
    rw [List.length_take]
    omega
  have htne : L.take bs ≠ [] := by
    intro h
    rw [h] at hlen_take
    simp at hlen_take
    omega
  have hcum_len : (cumsum (L.take (bs - 1))).length = bs - 1 := by
    rw [cumsum_length, List.length_take]
    omega
  have e1 : ∀ (w z : List Int), w.length = bs - 1 →
      ((0 : Int) :: (w ++ z)).take bs = (0 : Int) :: w := by
    intro w z hw
    have ebs : bs = (bs - 1) + 1 := by omega
    rw [ebs, List.take_succ_cons, List.take_left' hw]
  have e2 : exclCumsum (L.take bs) = (0 : Int) :: cumsum (L.take (bs - 1)) := by
    have hmin : min (bs - 1) bs = bs - 1 := by omega
    rw [exclCumsum_eq_cons _ htne, List.dropLast_eq_take, hlen_take,
      List.take_take, hmin]
  refine ⟨_, _, replay_eq _ _ bs L ht h1 h2r h3r,
    init_forward_metadata_decode_eq mem2 b0 (L.take bs) hsum, ?_⟩
  simp only [Option.map_some', Option.some_bind]
  rw [e1 _ _ hcum_len, e2]

/-- Witness for C2 at `max_bs = 4`, `bs = 3`, lengths `[4, 1, 7, 9]`. -/
theorem c2_replay_matches_fresh_build_witness :
    (1 ≤ 3 ∧ 3 ≤ 4 ∧ 3 ≤ ([4, 1, 7, 9] : List Int).length ∧
      ∀ x ∈ ([4, 1, 7, 9] : List Int), (0 : Int) ≤ x) ∧
    (∃ b1 b2,
      TritonAttnBackend.init_forward_metadata_replay_cuda_graph
        (TritonAttnBackend.init_cuda_graph_state []
          (TritonAttnBackend.init 2 RDtype.float16 8) 4) 3 [4, 1, 7, 9] = some b1 ∧
      TritonAttnBackend.init_forward_metadata []
        (TritonAttnBackend.init 2 RDtype.float16 8)
        (decodeBatch (([4, 1, 7, 9] : List Int).take 3)) = some b2 ∧
      b1.cuda_graph_start_loc.map (fun t => t.take 3) =
        b2.forward_metadata.bind ForwardMetadata.start_loc) :=
  ⟨⟨by decide, by decide, by decide, by decide⟩,
    c2_replay_matches_fresh_build (TritonAttnBackend.init 2 RDtype.float16 8) [] []
      4 3 [4, 1, 7, 9] (by decide) (by decide) (by decide) (by decide)⟩

/-- C8: a replay with in-range batch size mutates only the contents of the
pre-existing capture-state `start_loc` table: the source first zeroes the
whole table in place (`zero_()`), then writes the cumulative sums of
`L[0..bs-2]` into entries `1..bs-1`.  Afterwards entry 0 is 0, entry `i` for
`1 ≤ i < bs` is `sum(L[0..i-1])`, entries `≥ bs` are 0 (from the zeroing),
the table length is unchanged (nothing is reallocated or resized), and every
other field of the backend — in particular the capture accumulator buffer —
is untouched. -/
theorem c8_replay_in_place (b : TritonAttnBackend) (t : List Int) (bs : Nat)
    (L : List Int) (ht : b.cuda_graph_start_loc = some t) (h1 : 1 ≤ bs)
    (h2 : bs ≤ t.length) (h3 : bs - 1 ≤ L.length) :
    ∃ t1, TritonAttnBackend.init_forward_metadata_replay_cuda_graph b bs L =
        some { b with cuda_graph_start_loc := some t1 } ∧
      t1.length = t.length ∧
      t1.getD 0 0 = 0 ∧
      (∀ i, 0 < i → i < bs → t1.getD i 0 = (L.take i).sum) ∧
      (∀ i, bs ≤ i → i < t.length → t1.getD i 0 = 0) := by
  have hcum_len : (cumsum (L.take (bs - 1))).length = bs - 1 := by
    rw [cumsum_length, List.length_take]
    omega
  refine ⟨_, replay_eq b t bs L ht h1 h2 h3, ?_, ?_, ?_, ?_⟩
  · simp only [List.length_cons, List.length_append, List.length_replicate, hcum_len]
    omega
  · simp
  · intro i h0 hi
    have e : i = (i - 1) + 1 := by omega
    rw [e, List.getD_cons_succ,
      List.getD_append _ _ _ _ (by omega : i - 1 < (cumsum (L.take (bs - 1))).length)]
    have hi1 : i - 1 < (L.take (bs - 1)).length := by
      rw [List.length_take]
      omega
    rw [cumsum_getD _ _ hi1, List.take_take]
    have hmin : min (i - 1 + 1) (bs - 1) = i := by omega
    rw [hmin, ← e]
  · intro i hbs hit
    have e : i = (i - 1) + 1 := by omega
    rw [e, List.getD_cons_succ,
      List.getD_append_right _ _ _ _ (by omega : (cumsum (L.take (bs - 1))).length ≤ i - 1)]
    have hrep : i - 1 - (cumsum (L.take (bs - 1))).length < t.length - bs := by
      rw [hcum_len]
      omega
    rw [List.getD_eq_getElem _ _ (by simpa using hrep)]
    simp

/-- Witness for C8: table `[5, 6, 7, 8]`, batch size 3, lengths `[4, 1, 7]`. -/
theorem c8_replay_in_place_witness :
    ((TritonAttnBackend.mk 2 RDtype.float16 none 8 (some 32)
        (some [5, 6, 7, 8]) none).cuda_graph_start_loc = some [5, 6, 7, 8] ∧
      1 ≤ 3 ∧ 3 ≤ ([5, 6, 7, 8] : List Int).length ∧
      3 - 1 ≤ ([4, 1, 7] : List Int).length) ∧
    (∃ t1, TritonAttnBackend.init_forward_metadata_replay_cuda_graph
        (TritonAttnBackend.mk 2 RDtype.float16 none 8 (some 32)
          (some [5, 6, 7, 8]) none) 3 [4, 1, 7] =
        some { TritonAttnBackend.mk 2 RDtype.float16 none 8 (some 32)
            (some [5, 6, 7, 8]) none with
          cuda_graph_start_loc := some t1 } ∧
      t1.length = ([5, 6, 7, 8] : List Int).length ∧
      t1.getD 0 0 = 0 ∧
      (∀ i, 0 < i → i < 3 → t1.getD i 0 = (([4, 1, 7] : List Int).take i).sum) ∧
      (∀ i, 3 ≤ i → i < ([5, 6, 7, 8] : List Int).length → t1.getD i 0 = 0)) :=
  ⟨⟨rfl, by decide, by decide, by decide⟩,
    c8_replay_in_place
      (TritonAttnBackend.mk 2 RDtype.float16 none 8 (some 32)
        (some [5, 6, 7, 8]) none)
      [5, 6, 7, 8] 3 [4, 1, 7] rfl (by decide) (by decide) (by decide)⟩

/-- C3: when a batch carries a sub-batch index list, the offset computation
uses only arrays re-sliced by that same list: the decode `start_loc` is the
exclusive cumulative sum of the sliced lengths, the extend `max_extend_len`
comes from the sliced lengths minus the sliced prefix lengths, and
`forward_extend` passes to the kernel the sliced lengths, the sliced
new-token lengths, and offsets that are cumulative over the sliced new-token
lengths — never a mixture of sliced and unsliced arrays. -/
theorem c3_subbatch_consistent_slicing (mem : List Int) (b : TritonAttnBackend)
    (fb : ForwardBatch) (idx : List Nat)
    (hidx : fb.local_seq_indices = some idx) (hne : idx ≠ [])
    (hb1 : ∀ i ∈ idx, i < fb.seq_lens.length)
    (hb2 : ∀ i ∈ idx, i < fb.extend_prefix_lens.length)
    (hb3 : ∀ i ∈ idx, i < fb.extend_seq_lens.length)
    (hnn : 0 ≤ (sliceBy fb.seq_lens idx).sum) :
    (∃ b1, TritonAttnBackend.init_forward_metadata mem b
        { fb with forward_mode_is_decode := true } = some b1 ∧
      b1.forward_metadata.bind ForwardMetadata.start_loc =
        some (exclCumsum (sliceBy fb.seq_lens idx))) ∧
    (∃ b2, TritonAttnBackend.init_forward_metadata mem b
        { fb with forward_mode_is_decode := false } = some b2 ∧
      b2.forward_metadata.bind ForwardMetadata.max_extend_len =
        some (tensorMax (List.zipWith (fun x y => x - y)
          (sliceBy fb.seq_lens idx) (sliceBy fb.extend_prefix_lens idx)))) ∧
    (TritonAttnBackend.forward_extend_args fb =
      some { seq_lens := sliceBy fb.seq_lens idx,
             extend_seq_lens := sliceBy fb.extend_seq_lens idx,
             extend_start_loc := exclCumsum (sliceBy fb.extend_seq_lens idx) }) := by
  refine ⟨?_, ?_, ?_⟩
  · exact ⟨_, init_forward_metadata_decode_sliced mem b
      { fb with forward_mode_is_decode := true } idx rfl hidx hb1 hnn, rfl⟩
  · exact ⟨_, init_forward_metadata_extend_sliced mem b
      { fb with forward_mode_is_decode := false } idx rfl hidx hne hb1 hb2, rfl⟩
  · unfold TritonAttnBackend.forward_extend_args
    simp only [hidx, gatherIdx_eq_sliceBy fb.seq_lens idx hb1,
      gatherIdx_eq_sliceBy fb.extend_seq_lens idx hb3]
    rw [startLoc_closed_form]

/-- Witness for C3 at the spec's sub-batch scenario: full lengths
`[3, 5, 2, 9]`, index list `[0, 2]` (extend arrays `[30, 50, 20, 90]` and
prefix lengths `[1, 2, 1, 4]` to make the three conclusions distinct). -/
theorem c3_subbatch_consistent_slicing_witness :
    (({ forward_mode_is_decode := true, seq_lens := [3, 5, 2, 9],
        extend_prefix_lens := [1, 2, 1, 4], extend_seq_lens := [30, 50, 20, 90],
        extend_start_loc := [0, 30, 80, 100],
        local_seq_indices := some [0, 2] } : ForwardBatch).local_seq_indices =
      some [0, 2]) ∧
    ((∃ b1, TritonAttnBackend.init_forward_metadata []
        (TritonAttnBackend.init 2 RDtype.float16 8)
        { ({ forward_mode_is_decode := true, seq_lens := [3, 5, 2, 9],
             extend_prefix_lens := [1, 2, 1, 4], extend_seq_lens := [30, 50, 20, 90],
             extend_start_loc := [0, 30, 80, 100],
             local_seq_indices := some [0, 2] } : ForwardBatch) with
          forward_mode_is_decode := true } = some b1 ∧
      b1.forward_metadata.bind ForwardMetadata.start_loc =
        some (exclCumsum (sliceBy [3, 5, 2, 9] [0, 2]))) ∧
    (∃ b2, TritonAttnBackend.init_forward_metadata []
        (TritonAttnBackend.init 2 RDtype.float16 8)
        { ({ forward_mode_is_decode := true, seq_lens := [3, 5, 2, 9],
             extend_prefix_lens := [1, 2, 1, 4], extend_seq_lens := [30, 50, 20, 90],
             extend_start_loc := [0, 30, 80, 100],
             local_seq_indices := some [0, 2] } : ForwardBatch) with
          forward_mode_is_decode := false } = some b2 ∧
      b2.forward_metadata.bind ForwardMetadata.max_extend_len =
        some (tensorMax (List.zipWith (fun x y => x - y)
          (sliceBy [3, 5, 2, 9] [0, 2]) (sliceBy [1, 2, 1, 4] [0, 2])))) ∧
    (TritonAttnBackend.forward_extend_args
        ({ forward_mode_is_decode := true, seq_lens := [3, 5, 2, 9],
           extend_prefix_lens := [1, 2, 1, 4], extend_seq_lens := [30, 50, 20, 90],
           extend_start_loc := [0, 30, 80, 100],
           local_seq_indices := some [0, 2] } : ForwardBatch) =
      some { seq_lens := sliceBy [3, 5, 2, 9] [0, 2],
             extend_seq_lens := sliceBy [30, 50, 20, 90] [0, 2],
             extend_start_loc := exclCumsum (sliceBy [30, 50, 20, 90] [0, 2]) })) :=
  ⟨rfl,
    c3_subbatch_consistent_slicing [] (TritonAttnBackend.init 2 RDtype.float16 8)
      ({ forward_mode_is_decode := true, seq_lens := [3, 5, 2, 9],
         extend_prefix_lens := [1, 2, 1, 4], extend_seq_lens := [30, 50, 20, 90],
         extend_start_loc := [0, 30, 80, 100],
         local_seq_indices := some [0, 2] } : ForwardBatch) [0, 2]
      rfl (by decide) (by decide) (by decide) (by decide) (by decide)⟩

/-- C5 (counterexample): the claim fails on the code in two ways.  With
capture capacity `max_bs = 2` (table `[7, 8]` holding offsets from a prior
replay) and batch size 3, the replay does raise — but the first statement,
the in-place `zero_()`, has already overwritten the whole capture table
before the error (the claim requires failure before any write); and with
batch size 5 over a single-element length tensor the replay raises no error
at all (the one cumulative sum broadcasts into the clamped slice). -/
theorem c5_counterexample :
    (TritonAttnBackend.init_forward_metadata_replay_cuda_graph
      (TritonAttnBackend.mk 1 RDtype.float16 none 4 (some 8) (some [7, 8]) none)
      3 [1, 2, 3] = none) ∧
    TritonAttnBackend.replayZeroStep [7, 8] ≠ [7, 8] ∧
    (TritonAttnBackend.init_forward_metadata_replay_cuda_graph
      (TritonAttnBackend.mk 1 RDtype.float16 none 4 (some 8) (some [7, 8]) none)
      5 [4]).isSome = true := by decide

/-- C5 (amended): a replay never writes outside the pre-allocated table — on
success the table keeps its length and the accumulator and all other fields
are unchanged — and for a batch size exceeding the committed capacity (with
at least `bs - 1 ≥ 2` lengths supplied) the slice assignment raises; but the
error comes only after the whole table has been zeroed in place by `zero_()`
(the first statement of the replay), not before any device write. -/
theorem c5_capacity_amended (b : TritonAttnBackend) (t : List Int) (bs : Nat)
    (L : List Int) (ht : b.cuda_graph_start_loc = some t) :
    (∀ b1, TritonAttnBackend.init_forward_metadata_replay_cuda_graph b bs L = some b1 →
      b1.cuda_graph_start_loc.map List.length = some t.length ∧
      b1.cuda_graph_attn_logits = b.cuda_graph_attn_logits ∧
      b1.forward_metadata = b.forward_metadata) ∧
    (t.length < bs → 2 ≤ bs - 1 → bs - 1 ≤ L.length →
      TritonAttnBackend.init_forward_metadata_replay_cuda_graph b bs L = none ∧
      TritonAttnBackend.replayZeroStep t = List.replicate t.length 0) := by
  constructor
  · intro b1 h
    unfold TritonAttnBackend.init_forward_metadata_replay_cuda_graph at h
    simp only [ht] at h
    cases hr : TritonAttnBackend.replaySliceStep (TritonAttnBackend.replayZeroStep t) bs L with
    | none =>
      rw [hr] at h
      exact Option.noConfusion h
    | some t1 =>
      rw [hr] at h
      rw [Option.some.injEq] at h
      subst h
      unfold TritonAttnBackend.replaySliceStep at hr
      have hlen : t1.length = (TritonAttnBackend.replayZeroStep t).length :=
        setSlice_some_length _ _ _ _ _ hr
      refine ⟨?_, rfl, rfl⟩
      simp only [Option.map_some', Option.some.injEq]
      rw [hlen]
      unfold TritonAttnBackend.replayZeroStep
      simp
  · intro h1 h2 h3
    have hlen_vals : (cumsum (pySliceTo L ((bs : Int) - 1))).length = bs - 1 := by
      rw [pySliceTo_sub_one L bs (by omega), cumsum_length, List.length_take]
      omega
    have hnone : TritonAttnBackend.replaySliceStep
        (TritonAttnBackend.replayZeroStep t) bs L = none := by
      unfold TritonAttnBackend.replaySliceStep TritonAttnBackend.replayZeroStep
      apply setSlice_mismatch
      · rw [hlen_vals, List.length_replicate]
        omega
      · rw [hlen_vals]
        omega
    refine ⟨?_, rfl⟩
    unfold TritonAttnBackend.init_forward_metadata_replay_cuda_graph
    simp only [ht, hnone]

/-- Witness for the amended C5 at table `[7, 8]` (`max_bs = 2`). -/
theorem c5_capacity_amended_witness :
    ((TritonAttnBackend.mk 1 RDtype.float16 none 4 (some 8) (some [7, 8])
        none).cuda_graph_start_loc = some [7, 8]) ∧
    ((∀ b1, TritonAttnBackend.init_forward_metadata_replay_cuda_graph
        (TritonAttnBackend.mk 1 RDtype.float16 none 4 (some 8) (some [7, 8]) none)
        3 [1, 2, 3] = some b1 →
      b1.cuda_graph_start_loc.map List.length = some ([7, 8] : List Int).length ∧
      b1.cuda_graph_attn_logits = (TritonAttnBackend.mk 1 RDtype.float16 none 4
        (some 8) (some [7, 8]) none).cuda_graph_attn_logits ∧
      b1.forward_metadata = (TritonAttnBackend.mk 1 RDtype.float16 none 4
        (some 8) (some [7, 8]) none).forward_metadata) ∧
    (([7, 8] : List Int).length < 3 → 2 ≤ 3 - 1 → 3 - 1 ≤ ([1, 2, 3] : List Int).length →
      TritonAttnBackend.init_forward_metadata_replay_cuda_graph
        (TritonAttnBackend.mk 1 RDtype.float16 none 4 (some 8) (some [7, 8]) none)
        3 [1, 2, 3] = none ∧
      TritonAttnBackend.replayZeroStep [7, 8] =
        List.replicate ([7, 8] : List Int).length 0)) :=
  ⟨rfl, c5_capacity_amended
    (TritonAttnBackend.mk 1 RDtype.float16 none 4 (some 8) (some [7, 8]) none)
    [7, 8] 3 [1, 2, 3] rfl⟩

/-- C9 (counterexample): two successive `init_forward_metadata` calls on the
same decode batch need not produce bit-identical metadata, because the
accumulator is allocated with `torch.empty`, whose contents are whatever the
ambient device memory held at that moment; here the two calls observe
memories `[0]` and `[1]` and the stored metadata differs (in the accumulator
contents only). -/
theorem c9_counterexample :
    ((TritonAttnBackend.init_forward_metadata [0]
        (TritonAttnBackend.init 1 RDtype.float16 4) (decodeBatch [1])).bind
      (fun b1 => TritonAttnBackend.init_forward_metadata [1] b1 (decodeBatch [1]))).bind
      (fun b2 => b2.forward_metadata) ≠
    (TritonAttnBackend.init_forward_metadata [0]
        (TritonAttnBackend.init 1 RDtype.float16 4) (decodeBatch [1])).bind
      (fun b1 => b1.forward_metadata) := by decide


/-- Factorization of `init_forward_metadata`: the method writes exactly
`initMetadata` into `forward_metadata` and changes nothing else. -/
theorem init_forward_metadata_factored (mem : List Int) (b : TritonAttnBackend)
    (fb : ForwardBatch) :
    TritonAttnBackend.init_forward_metadata mem b fb =
      (initMetadata mem b.num_head b.reduce_dtype fb).map
        (fun md => { b with forward_metadata := some md }) := by
  unfold TritonAttnBackend.init_forward_metadata initMetadata
  split
  · rfl
  · split
    · split
      · rfl
      · split
        · rfl
        · rfl
    · split
      · rfl
      · split
        · split
          · rfl
          · split
            · rfl
            · rfl
        · rfl

/-- The metadata produced by `initMetadata` does not depend on the ambient
memory once the (undetermined) accumulator contents are erased. -/
theorem initMetadata_erase_eq (mem1 mem2 : List Int) (nh : Nat) (rd : RDtype)
    (fb : ForwardBatch) :
    (initMetadata mem1 nh rd fb).map ForwardMetadata.eraseAccContents =
      (initMetadata mem2 nh rd fb).map ForwardMetadata.eraseAccContents := by
  unfold initMetadata
  split
  · rfl
  · split
    · split
      · rfl
      · split
        · rfl
        · simp [ForwardMetadata.eraseAccContents]
    · rfl

/-- Every metadata tuple `initMetadata` produces is mode-exclusive. -/
theorem initMetadata_modeExclusive (mem : List Int) (nh : Nat) (rd : RDtype)
    (fb : ForwardBatch) (md : ForwardMetadata)
    (h : initMetadata mem nh rd fb = some md) : md.modeExclusive = true := by
  unfold initMetadata at h
  split at h
  · exact Option.noConfusion h
  · split at h
    · split at h
      · exact Option.noConfusion h
      · split at h
        · exact Option.noConfusion h
        · rw [Option.some.injEq] at h
          subst h
          rfl
    · split at h
      · exact Option.noConfusion h
      · split at h
        · split at h
          · exact Option.noConfusion h
          · split at h
            · exact Option.noConfusion h
            · rw [Option.some.injEq] at h
              subst h
              rfl
        · rw [Option.some.injEq] at h
          subst h
          rfl

/-- C9 (amended): two successive `init_forward_metadata` calls on the same
batch produce identical metadata up to the accumulator contents (which are
uninitialized `torch.empty` memory): the `start_loc` values, `max_seq_len`,
`max_extend_len`, and the accumulator shape and dtype are bit-identical; only
the undetermined contents may differ. -/
theorem c9_idempotent_amended (mem1 mem2 : List Int) (b b1 : TritonAttnBackend)
    (fb : ForwardBatch)
    (h : TritonAttnBackend.init_forward_metadata mem1 b fb = some b1) :
    ∃ b2, TritonAttnBackend.init_forward_metadata mem2 b1 fb = some b2 ∧
      b2.forward_metadata.map ForwardMetadata.eraseAccContents =
        b1.forward_metadata.map ForwardMetadata.eraseAccContents := by
  rw [init_forward_metadata_factored] at h
  cases hmd : initMetadata mem1 b.num_head b.reduce_dtype fb with
  | none =>
    rw [hmd] at h
    exact Option.noConfusion h
  | some md1 =>
    rw [hmd, Option.map_some', Option.some.injEq] at h
    subst h
    have hmem := initMetadata_erase_eq mem1 mem2 b.num_head b.reduce_dtype fb
    rw [hmd, Option.map_some'] at hmem
    cases hmd2 : initMetadata mem2 b.num_head b.reduce_dtype fb with
    | none =>
      rw [hmd2, Option.map_none'] at hmem
      exact Option.noConfusion hmem
    | some md2 =>
      rw [hmd2, Option.map_some'] at hmem
      refine ⟨{ b with forward_metadata := some md2 }, ?_, ?_⟩
      · rw [init_forward_metadata_factored]
        have hmd2' : initMetadata mem2
            ({ b with forward_metadata := some md1 } : TritonAttnBackend).num_head
            ({ b with forward_metadata := some md1 } : TritonAttnBackend).reduce_dtype
            fb = some md2 := hmd2
        rw [hmd2', Option.map_some']
      · exact hmem.symm

/-- Witness for the amended C9: two calls on the decode batch `[1]`, with
ambient memories `[0]` and `[1]`. -/
theorem c9_idempotent_amended_witness :
    (TritonAttnBackend.init_forward_metadata [0]
        (TritonAttnBackend.init 1 RDtype.float16 4) (decodeBatch [1]) =
      some (TritonAttnBackend.mk 1 RDtype.float16
        (some (ForwardMetadata.mk (some [0])
          (some (Tensor2.mk (1, 1) RDtype.float16 [0])) (some 1) none))
        4 none none none)) ∧
    (∃ b2, TritonAttnBackend.init_forward_metadata [1]
        (TritonAttnBackend.mk 1 RDtype.float16
          (some (ForwardMetadata.mk (some [0])
            (some (Tensor2.mk (1, 1) RDtype.float16 [0])) (some 1) none))
          4 none none none) (decodeBatch [1]) = some b2 ∧
      b2.forward_metadata.map ForwardMetadata.eraseAccContents =
        (TritonAttnBackend.mk 1 RDtype.float16
          (some (ForwardMetadata.mk (some [0])
            (some (Tensor2.mk (1, 1) RDtype.float16 [0])) (some 1) none))
          4 none none none).forward_metadata.map ForwardMetadata.eraseAccContents) :=
  ⟨by decide,
    c9_idempotent_amended [0] [1] (TritonAttnBackend.init 1 RDtype.float16 4)
      (TritonAttnBackend.mk 1 RDtype.float16
        (some (ForwardMetadata.mk (some [0])
          (some (Tensor2.mk (1, 1) RDtype.float16 [0])) (some 1) none))
        4 none none none)
      (decodeBatch [1]) (by decide)⟩

/-- C10: every operation that assigns `forward_metadata` —
`init_forward_metadata` in either mode, or
`init_forward_metadata_capture_cuda_graph` — stores a tuple in which either
all three decode fields (`start_loc`, accumulator, `max_seq_len`) are
populated and `max_extend_len` is `None`, or all three are `None` and
`max_extend_len` is populated; never a mixture. -/
theorem c10_mode_exclusive (mem : List Int) (b b1 : TritonAttnBackend)
    (fb : ForwardBatch) (bs : Nat) (rpi : List Nat) (sl : List Int)
    (m : ForwardMetadata)
    (h : TritonAttnBackend.init_forward_metadata mem b fb = some b1 ∨
      TritonAttnBackend.init_forward_metadata_capture_cuda_graph b bs rpi sl = some b1)
    (hm : b1.forward_metadata = some m) :
    m.modeExclusive = true := by
  rcases h with h | h
  · rw [init_forward_metadata_factored] at h
    cases hmd : initMetadata mem b.num_head b.reduce_dtype fb with
    | none =>
      rw [hmd] at h
      exact Option.noConfusion h
    | some md =>
      rw [hmd, Option.map_some', Option.some.injEq] at h
      subst h
      have hm2 : md = m := Option.some.inj hm
      subst hm2
      exact initMetadata_modeExclusive mem b.num_head b.reduce_dtype fb md hmd
  · unfold TritonAttnBackend.init_forward_metadata_capture_cuda_graph at h
    split at h
    · rw [Option.some.injEq] at h
      subst h
      have hm2 := Option.some.inj hm
      subst hm2
      rfl
    · exact Option.noConfusion h

/-- Witness for C10: the decode call on batch `[1]` used for C9, through the
`init_forward_metadata` arm. -/
theorem c10_mode_exclusive_witness :
    (TritonAttnBackend.init_forward_metadata []
        (TritonAttnBackend.init 1 RDtype.float16 4) (decodeBatch [1]) =
      some (TritonAttnBackend.mk 1 RDtype.float16
        (some (ForwardMetadata.mk (some [0])
          (some (Tensor2.mk (1, 1) RDtype.float16 [0])) (some 1) none))
        4 none none none) ∨
      TritonAttnBackend.init_forward_metadata_capture_cuda_graph
        (TritonAttnBackend.init 1 RDtype.float16 4) 0 [] [] =
      some (TritonAttnBackend.mk 1 RDtype.float16
        (some (ForwardMetadata.mk (some [0])
          (some (Tensor2.mk (1, 1) RDtype.float16 [0])) (some 1) none))
        4 none none none)) ∧
      (TritonAttnBackend.mk 1 RDtype.float16
        (some (ForwardMetadata.mk (some [0])
          (some (Tensor2.mk (1, 1) RDtype.float16 [0])) (some 1) none))
        4 none none none).forward_metadata =
        some (ForwardMetadata.mk (some [0])
          (some (Tensor2.mk (1, 1) RDtype.float16 [0])) (some 1) none) ∧
    (ForwardMetadata.mk (some [0])
      (some (Tensor2.mk (1, 1) RDtype.float16 [0])) (some 1) none).modeExclusive = true :=
  ⟨Or.inl (by decide), by decide,
    c10_mode_exclusive [] (TritonAttnBackend.init 1 RDtype.float16 4)
      (TritonAttnBackend.mk 1 RDtype.float16
        (some (ForwardMetadata.mk (some [0])
          (some (Tensor2.mk (1, 1) RDtype.float16 [0])) (some 1) none))
        4 none none none)
      (decodeBatch [1]) 0 [] []
      (ForwardMetadata.mk (some [0])
        (some (Tensor2.mk (1, 1) RDtype.float16 [0])) (some 1) none)
      (Or.inl (by decide)) (by decide)⟩
